import Mathlib

/-!
Verification of the actor-execution core in `src/quickwit-actors/src/actor.rs`:
the termination taxonomy, the `ActorContext` handle, the backpressure-safe
send protocol and the deferred self-messaging path.

Collaborator types (`Mailbox`, `KillSwitch`, `Progress`, the scheduler types
and `SendError`) live elsewhere in the crate; here they are modelled from the
specification's collaborator contracts (spec section 6), with each such
definition marked `Modelled from the spec:` in its doc comment.
-/

namespace Quickwit

/-- Opaque application error carried by `ActorTermination::Failure`
(`anyhow::Error` in the source); only its presence matters here. -/
structure AnyhowError where
  msg : String
deriving DecidableEq, Repr

/-- `ActorTermination` from `actor.rs`: the closed set of reasons an actor's
run loop ends. -/
inductive ActorTermination where
  | OnDemand
  | DownstreamClosed
  | Failure (cause : AnyhowError)
  | Finished
  | KillSwitch
deriving DecidableEq, Repr

/-- `ActorTermination::is_finished` from `actor.rs`. -/
def ActorTermination.is_finished : ActorTermination → Bool
  | ActorTermination.Finished => true
  | _ => false

/-- `ActorTermination::is_failure` from `actor.rs`: the five-way match. -/
def ActorTermination.is_failure : ActorTermination → Bool
  | ActorTermination.OnDemand => false
  | ActorTermination.DownstreamClosed => true
  | ActorTermination.Failure _ => true
  | ActorTermination.Finished => false
  | ActorTermination.KillSwitch => false

/-- Modelled from the spec: `crate::SendError` is not under `src/`.
Spec section 6 says a mailbox send "fails if the receiving actor is gone",
and section 4.4 names a "would deadlock" failure condition, so the error
carries (at least) these two shapes. -/
inductive SendError where
  | Disconnected
  | WouldDeadlock
deriving DecidableEq, Repr

/-- `impl From<SendError> for ActorTermination` from `actor.rs`: the argument
is bound to `_` and `DownstreamClosed` is returned unconditionally. -/
def ActorTermination.from_send_error (_e : SendError) : ActorTermination :=
  ActorTermination.DownstreamClosed

/-- `QueueCapacity` (declared in the crate, used by `Actor::queue_capacity`):
an enumerated sizing policy with at minimum an unbounded option (spec
section 6). -/
inductive QueueCapacity where
  | Unbounded
  | Bounded (n : Nat)
deriving DecidableEq, Repr

/-- `crate::mailbox::Command`: the high-priority, out-of-band message class.
Only the `HighPriorityMessage` constructor is used by `actor.rs`. -/
inductive Command (M : Type) where
  | HighPriorityMessage (msg : M)
deriving DecidableEq, Repr

/-- `crate::actor_handle::ActorMessage`: the envelope enqueued on the normal
queue. Only the `Message` constructor is used by `actor.rs`. -/
inductive ActorMessage (M : Type) where
  | Message (msg : M)
deriving DecidableEq, Repr

/-- Modelled from the spec: `Mailbox<M>` (spec section 6) — the ordered
message queue belonging to one actor, with a normal queue, a high-priority
command lane, a capacity policy, the owning actor's display name, and a
connected flag (a send "fails if the receiving actor is gone"). `uid`
identifies the underlying channel: the handle's binding, as opposed to the
queue contents, which evolve as messages flow. -/
structure Mailbox (M : Type) where
  uid : Nat
  actor_instance_name : String
  capacity : QueueCapacity
  connected : Bool
  queue : List (ActorMessage M)
  commands : List (Command M)
deriving DecidableEq, Repr

/-- A bounded mailbox is full when its normal queue has reached capacity;
an unbounded mailbox is never full. -/
def Mailbox.isFull {M : Type} (mb : Mailbox M) : Bool :=
  match mb.capacity with
  | QueueCapacity.Unbounded => false
  | QueueCapacity.Bounded n => decide (n ≤ mb.queue.length)

/-- Appending one envelope at the back of the normal queue. -/
def Mailbox.enqueue {M : Type} (mb : Mailbox M) (m : ActorMessage M) : Mailbox M :=
  { mb with queue := mb.queue ++ [m] }

/-- The receiving actor draining one envelope from the front of its queue. -/
def Mailbox.drain_one {M : Type} (mb : Mailbox M) : Mailbox M :=
  { mb with queue := mb.queue.drop 1 }

/-- The error of a non-blocking channel send attempt (the channel library's
try-send error): the queue is full, or the channel is disconnected. -/
inductive TrySendError where
  | Full
  | Disconnected
deriving DecidableEq, Repr

/-- Modelled from the spec: the "immediate non-blocking send attempt" of the
mailbox contract (spec section 6), i.e. `self_mailbox.tx.try_send` in
`actor.rs`: it never waits — it fails when the channel is disconnected or
the queue is full, and otherwise enqueues instantly. -/
def Mailbox.try_send {M : Type} (mb : Mailbox M) (m : ActorMessage M) :
    Except TrySendError (Mailbox M) :=
  if mb.connected = false then Except.error TrySendError.Disconnected
  else if mb.isFull then Except.error TrySendError.Full
  else Except.ok (mb.enqueue m)

/-- Modelled from the spec: `Mailbox::send_command` — "out-of-band
supervisory/high-priority delivery" (spec section 6): appends to the
high-priority command lane, failing if the receiving actor is gone. -/
def Mailbox.send_command {M : Type} (mb : Mailbox M) (c : Command M) :
    Except SendError (Mailbox M) :=
  if mb.connected = false then Except.error SendError.Disconnected
  else Except.ok { mb with commands := mb.commands ++ [c] }

/-- Modelled from the spec: `KillSwitch` — a monotonic fail-fast flag
exposing a one-way trip operation (spec sections 5 and 6). -/
structure KillSwitch where
  killed : Bool
deriving DecidableEq, Repr

/-- The one-way trip: after `kill` the switch is tripped, regardless of its
prior state (untripped → tripped, never reversed). -/
def KillSwitch.kill (_k : KillSwitch) : KillSwitch :=
  { killed := true }

/-- `ActorState` (crate `actor_state` module): the run-state machine with at
least `Running`, `Paused` and the terminal `Terminated` (spec section 3). -/
inductive ActorState where
  | Running
  | Paused
  | Terminated
deriving DecidableEq, Repr

/-- Modelled from the spec: `AtomicState` — atomically stored run-state,
mutated only through `pause`, `resume`, `terminate` (spec section 3). -/
structure AtomicState where
  state : ActorState
deriving DecidableEq, Repr

/-- A fresh context starts with its run loop about to run (spec section 3:
the context is created before the actor's run loop starts). -/
def AtomicState.default : AtomicState := { state := ActorState.Running }

def AtomicState.get_state (s : AtomicState) : ActorState := s.state

def AtomicState.pause (_s : AtomicState) : AtomicState :=
  { state := ActorState.Paused }

def AtomicState.resume (_s : AtomicState) : AtomicState :=
  { state := ActorState.Running }

/-- `terminate` is one-directional: it stores the terminal state. -/
def AtomicState.terminate (_s : AtomicState) : AtomicState :=
  { state := ActorState.Terminated }

/-- Modelled from the spec: the per-actor liveness/progress tracker (spec
sections 4.3, 5, 6): a scoped exemption acquisition (`protect_zone`) and a
manual progress reset (`record_progress`), both observable by a concurrent
external monitor. -/
structure Progress where
  protect_count : Nat
  progress_recorded : Bool
deriving DecidableEq, Repr

def Progress.default : Progress :=
  { protect_count := 0, progress_recorded := false }

/-- Acquiring the scoped liveness exemption (`Progress::protect_zone`). -/
def Progress.protect_zone (p : Progress) : Progress :=
  { p with protect_count := p.protect_count + 1 }

/-- Manually resetting the liveness clock (`Progress::record_progress`). -/
def Progress.record_progress (p : Progress) : Progress :=
  { p with progress_recorded := true }

/-- `crate::scheduler::Callback` in `actor.rs` is an opaque pinned future
capturing a clone of the actor's own mailbox and the command to deliver; we
model it by that captured data. -/
structure Callback (M : Type) where
  self_mailbox : Mailbox M
  cmd : Command M
deriving DecidableEq, Repr

/-- `crate::scheduler::SchedulerMessage::ScheduleEvent`: a timeout (duration
as nanoseconds) plus the deferred callback (spec section 6). -/
inductive SchedulerMessage (M : Type) where
  | ScheduleEvent (timeout : Nat) (callback : Callback M)
deriving DecidableEq, Repr

/-- Running the deferred callback after the timer fires: `actor.rs` builds
`async move \x7b let _ = self_mailbox.send_command(cmd).await; \x7d` — the
command is delivered through `send_command` against the target mailbox and
the delivery error, if any, is discarded (the mailbox is left as it was). -/
def Callback.run {M : Type} (cb : Callback M) (mb : Mailbox M) : Mailbox M :=
  match mb.send_command cb.cmd with
  | Except.ok mb' => mb'
  | Except.error _ => mb

/-! ## Execution traces

The temporal claims (C4, C5, C6) are about what happens *while* a send is in
flight: whether the caller waits, and whether the liveness exemption is held
at that moment. We model an in-flight send as the list of observable events
it produces, and the monitor's view as the protect-zone depth over a prefix
of that list. -/

/-- Observable events of a context operation, as seen by the external
liveness monitor and by the mailbox. -/
inductive Ev where
  /-- the scoped `ProtectZoneGuard` is acquired (`protect_zone`) -/
  | acquireProtect
  /-- the scoped `ProtectZoneGuard` is dropped -/
  | releaseProtect
  /-- the sender blocks/suspends one step on a saturated queue -/
  | waitStep
  /-- the envelope is enqueued on the target queue -/
  | enqueueStep
  /-- the send fails (the receiving actor is gone) -/
  | sendFailStep
  /-- a single non-blocking `try_send` attempt -/
  | trySendAttempt
deriving DecidableEq, Repr

/-- Contribution of one event to the protect-zone depth. -/
def Ev.protectDelta : Ev → Int
  | Ev.acquireProtect => 1
  | Ev.releaseProtect => -1
  | _ => 0

/-- Protect-zone depth after a list of events: the number of exemption
guards currently held. An observer polling while depth ≥ 1 must not
classify the actor as stalled. -/
def protectDepth (t : List Ev) : Int :=
  (t.map Ev.protectDelta).sum

/-- The events belonging to the underlying mailbox send itself. -/
def Ev.isSendStep : Ev → Bool
  | Ev.waitStep => true
  | Ev.enqueueStep => true
  | Ev.sendFailStep => true
  | _ => false

/-- Modelled from the spec: `Mailbox::send_message` — the
suspending/blocking ordered send of the mailbox contract (spec section 6):
it fails if the receiving actor is gone, enqueues at the back otherwise,
and while the queue is saturated the caller waits, completing once the
receiver drains capacity free. `drains` is the number of envelopes the
environment (the receiving actor) will drain during the wait; `none` means
the send is still suspended after those drains. The second component is the
trace of events the send produced. -/
def Mailbox.send_message_go {M : Type} (m : ActorMessage M) :
    Nat → Mailbox M → Option (Except SendError (Mailbox M)) × List Ev
  | 0, mb =>
    if mb.connected = false then
      (some (Except.error SendError.Disconnected), [Ev.sendFailStep])
    else if mb.isFull then
      (none, [Ev.waitStep])
    else
      (some (Except.ok (mb.enqueue m)), [Ev.enqueueStep])
  | Nat.succ d, mb =>
    if mb.connected = false then
      (some (Except.error SendError.Disconnected), [Ev.sendFailStep])
    else if mb.isFull then
      let r := Mailbox.send_message_go m d mb.drain_one
      (r.1, Ev.waitStep :: r.2)
    else
      (some (Except.ok (mb.enqueue m)), [Ev.enqueueStep])

/-- See `Mailbox.send_message_go`; entry point with the mailbox first, so
that `mb.send_message_run m drains` reads like the source's
`mailbox.send_message(msg)`. -/
def Mailbox.send_message_run {M : Type} (mb : Mailbox M) (m : ActorMessage M)
    (drains : Nat) : Option (Except SendError (Mailbox M)) × List Ev :=
  Mailbox.send_message_go m drains mb
/-! ## The actor context (`ActorContext` in `actor.rs`) -/

/-- `ActorContextInner<A>` from `actor.rs`: the state shared by all clones
of a context. `M` stands for `A::Message`. -/
structure ActorContextInner (M : Type) where
  actor_instance_name : String
  self_mailbox : Mailbox M
  progress : Progress
  kill_switch : KillSwitch
  scheduler_mailbox : Mailbox (SchedulerMessage M)
  actor_state : AtomicState
deriving DecidableEq, Repr

/-- `ActorContext<A>` from `actor.rs`: a cheaply clonable handle around the
shared inner state (an `Arc` in the source; all clones alias one inner). -/
structure ActorContext (M : Type) where
  inner : ActorContextInner M
deriving DecidableEq, Repr

/-- `impl Clone for ActorContext`: cloning shares the same inner state. -/
def ActorContext.clone {M : Type} (c : ActorContext M) : ActorContext M :=
  { inner := c.inner }

/-- `ActorContext::new` from `actor.rs`: the instance name is taken from the
actor's own mailbox, progress and run-state start at their defaults. -/
def ActorContext.new {M : Type} (self_mailbox : Mailbox M)
    (kill_switch : KillSwitch)
    (scheduler_mailbox : Mailbox (SchedulerMessage M)) : ActorContext M :=
  { inner :=
      { actor_instance_name := self_mailbox.actor_instance_name
        self_mailbox := self_mailbox
        progress := Progress.default
        kill_switch := kill_switch
        scheduler_mailbox := scheduler_mailbox
        actor_state := AtomicState.default } }

/-- `ActorContext::mailbox`: read access to the own mailbox handle. -/
def ActorContextInner.mailbox {M : Type} (ctx : ActorContextInner M) :
    Mailbox M :=
  ctx.self_mailbox

/-- `ActorContext::get_state`. -/
def ActorContextInner.get_state {M : Type} (ctx : ActorContextInner M) :
    ActorState :=
  ctx.actor_state.get_state

/-- `ActorContext::pause`: mutates only the run-state. -/
def ActorContextInner.pause {M : Type} (ctx : ActorContextInner M) :
    ActorContextInner M :=
  { ctx with actor_state := ctx.actor_state.pause }

/-- `ActorContext::resume`: mutates only the run-state. -/
def ActorContextInner.resume {M : Type} (ctx : ActorContextInner M) :
    ActorContextInner M :=
  { ctx with actor_state := ctx.actor_state.resume }

/-- `ActorContext::record_progress`: resets the liveness clock. -/
def ActorContextInner.record_progress {M : Type} (ctx : ActorContextInner M) :
    ActorContextInner M :=
  { ctx with progress := ctx.progress.record_progress }

/-- `ActorContext::protect_zone` as a state effect: acquiring the scoped
liveness-exemption guard. -/
def ActorContextInner.protect_zone {M : Type} (ctx : ActorContextInner M) :
    ActorContextInner M :=
  { ctx with progress := ctx.progress.protect_zone }

/-- `ActorContext::terminate` from `actor.rs`: if the termination reason is
a failure, trip the shared kill switch; in every case, store the terminal
run-state. -/
def ActorContextInner.terminate {M : Type} (ctx : ActorContextInner M)
    (termination : ActorTermination) : ActorContextInner M :=
  let ctx' :=
    if termination.is_failure then
      { ctx with kill_switch := ctx.kill_switch.kill }
    else ctx
  { ctx' with actor_state := ctx'.actor_state.terminate }

/-! ## The backpressure-safe send protocol (`actor.rs`, sections for
`SyncActor` and `AsyncActor`) -/

/-- `ActorContext::send_message_blocking` (blocking flavor, `actor.rs`):
acquires the protect-zone guard, then performs the blocking mailbox send;
the guard is dropped when the function returns, on every exit path. The
result pairs the send outcome (`none` while still blocked) with the trace:
while the send is in flight the guard has been acquired and not yet
released, so a still-blocked run's trace ends without `releaseProtect`. -/
def ActorContext.send_message_blocking {M N : Type} (_ctx : ActorContextInner M)
    (mailbox : Mailbox N) (msg : N) (drains : Nat) :
    Option (Except SendError (Mailbox N)) × List Ev :=
  let r := mailbox.send_message_run (ActorMessage.Message msg) drains
  match r.1 with
  | none => (none, Ev.acquireProtect :: r.2)
  | some res => (some res, Ev.acquireProtect :: (r.2 ++ [Ev.releaseProtect]))

/-- `ActorContext::send_message` (cooperative flavor, `actor.rs`): same
protocol as `send_message_blocking`, with cooperative suspension in place
of thread blocking; the wait steps of the trace are suspension points. -/
def ActorContext.send_message {M N : Type} (_ctx : ActorContextInner M)
    (mailbox : Mailbox N) (msg : N) (drains : Nat) :
    Option (Except SendError (Mailbox N)) × List Ev :=
  let r := mailbox.send_message_run (ActorMessage.Message msg) drains
  match r.1 with
  | none => (none, Ev.acquireProtect :: r.2)
  | some res => (some res, Ev.acquireProtect :: (r.2 ++ [Ev.releaseProtect]))

/-- `ActorContext::send_self_message_blocking` (blocking flavor,
`actor.rs`): a single non-blocking `try_send` on the own mailbox; any
failure of that attempt is mapped to `SendError::WouldDeadlock`. No guard
is acquired and no waiting ever happens. -/
def ActorContext.send_self_message_blocking {M : Type}
    (ctx : ActorContextInner M) (msg : M) :
    Except SendError (Mailbox M) × List Ev :=
  match ctx.self_mailbox.try_send (ActorMessage.Message msg) with
  | Except.error _ => (Except.error SendError.WouldDeadlock, [Ev.trySendAttempt])
  | Except.ok mb => (Except.ok mb, [Ev.trySendAttempt])

/-- `ActorContext::send_self_message` (cooperative flavor, `actor.rs`): a
plain suspending `send_message` against the actor's own mailbox — no
protect-zone guard is acquired and the underlying outcome is returned to
the caller as is. -/
def ActorContext.send_self_message {M : Type} (ctx : ActorContextInner M)
    (msg : M) (drains : Nat) :
    Option (Except SendError (Mailbox M)) × List Ev :=
  ctx.self_mailbox.send_message_run (ActorMessage.Message msg) drains

/-! ## Deferred self-messaging (`actor.rs`) -/

/-- `ActorContext::schedule_self_msg_blocking` (blocking flavor,
`actor.rs`): clone the own mailbox, wrap the message as
`Command::HighPriorityMessage`, build the `ScheduleEvent` with the given
timeout and the deferred callback, and submit it to the scheduler's mailbox
through `send_message_blocking`; the submission's result is discarded
(`let _ = ...`), so the caller gets `()` whatever happened. The returned
triple keeps the discarded outcome and the trace as observables. -/
def ActorContext.schedule_self_msg_blocking {M : Type}
    (ctx : ActorContextInner M) (after_duration : Nat) (msg : M)
    (drains : Nat) :
    Unit × (Option (Except SendError (Mailbox (SchedulerMessage M))) × List Ev) :=
  let self_mailbox := ctx.self_mailbox
  let cmd_schedule_msg := Command.HighPriorityMessage msg
  let scheduler_msg := SchedulerMessage.ScheduleEvent after_duration
    { self_mailbox := self_mailbox, cmd := cmd_schedule_msg }
  ((), ActorContext.send_message_blocking ctx ctx.scheduler_mailbox
    scheduler_msg drains)

/-- `ActorContext::schedule_self_msg` (cooperative flavor, `actor.rs`):
identical to the blocking flavor except that the scheduling request is
submitted through the cooperative `send_message`. -/
def ActorContext.schedule_self_msg {M : Type}
    (ctx : ActorContextInner M) (after_duration : Nat) (msg : M)
    (drains : Nat) :
    Unit × (Option (Except SendError (Mailbox (SchedulerMessage M))) × List Ev) :=
  let self_mailbox := ctx.self_mailbox
  let cmd_schedule_msg := Command.HighPriorityMessage msg
  let callback : Callback M :=
    { self_mailbox := self_mailbox, cmd := cmd_schedule_msg }
  let scheduler_msg := SchedulerMessage.ScheduleEvent after_duration callback
  ((), ActorContext.send_message ctx ctx.scheduler_mailbox scheduler_msg drains)

/-! ## Operation sequences over a context

For the construction/immutability claim we close the state-mutating
operations of the context (and of its clones — all aliasing the same inner
state) under sequencing: the run-loop mutators `pause`, `resume`,
`terminate`, the liveness operations `record_progress` and `protect_zone`,
and an external trip of the shared kill switch by another actor. -/

inductive CtxOp where
  | pause
  | resume
  | terminate (t : ActorTermination)
  | record_progress
  | protect_zone
  | kill_external
deriving DecidableEq, Repr

/-- Effect of one operation on the shared inner state. -/
def CtxOp.applyTo {M : Type} (ctx : ActorContextInner M) :
    CtxOp → ActorContextInner M
  | CtxOp.pause => ctx.pause
  | CtxOp.resume => ctx.resume
  | CtxOp.terminate t => ctx.terminate t
  | CtxOp.record_progress => ctx.record_progress
  | CtxOp.protect_zone => ctx.protect_zone
  | CtxOp.kill_external => { ctx with kill_switch := ctx.kill_switch.kill }

/-- Effect of a sequence of operations, first to last. -/
def applyOps {M : Type} (ctx : ActorContextInner M) (ops : List CtxOp) :
    ActorContextInner M :=
  ops.foldl CtxOp.applyTo ctx

/-! ## Concrete fixtures

Small closed instances used to evaluate the theorems on concrete inputs. -/

/-- A connected own mailbox that is saturated: bounded capacity 1, one
envelope already queued. -/
def mbFullW : Mailbox Nat :=
  { uid := 1
    actor_instance_name := "actor-a"
    capacity := QueueCapacity.Bounded 1
    connected := true
    queue := [ActorMessage.Message 5]
    commands := [] }

/-- A disconnected (closed) own mailbox with free capacity. -/
def mbClosedW : Mailbox Nat :=
  { uid := 2
    actor_instance_name := "actor-b"
    capacity := QueueCapacity.Bounded 1
    connected := false
    queue := []
    commands := [] }

/-- A connected, unbounded scheduler mailbox. -/
def schedMbW : Mailbox (SchedulerMessage Nat) :=
  { uid := 3
    actor_instance_name := "scheduler"
    capacity := QueueCapacity.Unbounded
    connected := true
    queue := []
    commands := [] }

/-- A concrete context whose own mailbox is `mbFullW` and whose kill switch
is untripped. -/
def ctxW : ActorContextInner Nat :=
  { actor_instance_name := "actor-a"
    self_mailbox := mbFullW
    progress := Progress.default
    kill_switch := { killed := false }
    scheduler_mailbox := schedMbW
    actor_state := AtomicState.default }

/-- The same context with a closed own mailbox. -/
def ctxClosedW : ActorContextInner Nat :=
  { ctxW with self_mailbox := mbClosedW }

/-! ## Trace lemmas -/

/-- Every event produced by the underlying mailbox send is a send step
(a wait, an enqueue, or a send failure) — in particular the mailbox itself
never touches the protect zone. -/
theorem send_message_go_events {M : Type} (m : ActorMessage M) :
    ∀ (d : Nat) (mb : Mailbox M) (ev : Ev),
      ev ∈ (Mailbox.send_message_go m d mb).2 → ev.isSendStep = true := by
  intro d
  induction d with
  | zero =>
    intro mb ev hev
    simp only [Mailbox.send_message_go] at hev
    by_cases hc : mb.connected = false
    · simp [hc] at hev
      subst hev; rfl
    · by_cases hf : mb.isFull = true
      · simp [hc, hf] at hev
        subst hev; rfl
      · simp [hc, hf] at hev
        subst hev; rfl
  | succ d ih =>
    intro mb ev hev
    simp only [Mailbox.send_message_go] at hev
    by_cases hc : mb.connected = false
    · simp [hc] at hev
      subst hev; rfl
    · by_cases hf : mb.isFull = true
      · simp [hc, hf] at hev
        rcases hev with h | h
        · subst h; rfl
        · exact ih mb.drain_one ev h
      · simp [hc, hf] at hev
        subst hev; rfl

/-- Send steps do not change the protect-zone depth. -/
theorem sendStep_protectDelta (ev : Ev) (h : ev.isSendStep = true) :
    ev.protectDelta = 0 := by
  cases ev <;> simp_all [Ev.isSendStep, Ev.protectDelta]

/-- A trace made only of send steps has protect-zone depth zero. -/
theorem protectDepth_sendSteps (t : List Ev)
    (h : ∀ ev ∈ t, Ev.isSendStep ev = true) : protectDepth t = 0 := by
  unfold protectDepth
  induction t with
  | nil => simp
  | cons x xs ih =>
    simp only [List.map_cons, List.sum_cons]
    rw [sendStep_protectDelta x (h x (by simp)),
      ih (fun ev hev => h ev (by simp [hev]))]
    simp

/-- Depth is additive over concatenation. -/
theorem protectDepth_append (s t : List Ev) :
    protectDepth (s ++ t) = protectDepth s + protectDepth t := by
  simp [protectDepth]

theorem protectDepth_cons (e : Ev) (t : List Ev) :
    protectDepth (e :: t) = e.protectDelta + protectDepth t := by
  simp [protectDepth]

/-- Splitting `l₁ ++ l₂ = pre ++ ev :: post` with a short `pre`: every
element of `pre` already occurs in `l₁`. -/
theorem mem_left_of_split {α : Type} (l₁ l₂ pre post : List α) (ev : α)
    (h : pre ++ ev :: post = l₁ ++ l₂) (hlen : pre.length ≤ l₁.length) :
    ∀ e ∈ pre, e ∈ l₁ := by
  intro e he
  have h1 : (pre ++ ev :: post).take pre.length = pre := by
    rw [List.take_append_eq_append_take]
    simp
  rw [h, List.take_append_eq_append_take, Nat.sub_eq_zero_of_le hlen] at h1
  simp at h1
  rw [← h1] at he
  exact List.take_subset _ _ he

/-- The heart of the liveness-exemption argument: a trace of the form
`acquire :: t` or `acquire :: t ++ [release]`, with `t` made only of send
steps, has depth ≥ 1 strictly before every send step, has depth ≥ 1 while
still suspended, and returns to depth 0 once the release is reached. -/
theorem protect_wrap_spec (t : List Ev)
    (ht : ∀ e ∈ t, Ev.isSendStep e = true) :
    (∀ pre ev post, Ev.isSendStep ev = true →
      (Ev.acquireProtect :: t = pre ++ ev :: post ∨
       Ev.acquireProtect :: (t ++ [Ev.releaseProtect]) = pre ++ ev :: post) →
      1 ≤ protectDepth pre) ∧
    protectDepth (Ev.acquireProtect :: (t ++ [Ev.releaseProtect])) = 0 ∧
    1 ≤ protectDepth (Ev.acquireProtect :: t) := by
  have hdepth : protectDepth t = 0 := protectDepth_sendSteps t ht
  refine ⟨?_, ?_, ?_⟩
  · intro pre ev post hev heq
    cases pre with
    | nil =>
      exfalso
      rcases heq with h | h <;>
        · rw [List.nil_append] at h
          have : Ev.acquireProtect = ev := (List.cons_eq_cons.mp h).1
          rw [← this] at hev
          simp [Ev.isSendStep] at hev
    | cons p pre' =>
      have hp : p = Ev.acquireProtect ∧
          pre' ++ ev :: post = t ∨
          p = Ev.acquireProtect ∧
          pre' ++ ev :: post = t ++ [Ev.releaseProtect] := by
        rcases heq with h | h
        · rw [List.cons_append] at h
          have hc := List.cons_eq_cons.mp h
          exact Or.inl ⟨hc.1.symm, hc.2.symm⟩
        · rw [List.cons_append] at h
          have hc := List.cons_eq_cons.mp h
          exact Or.inr ⟨hc.1.symm, hc.2.symm⟩
      have hsub : p = Ev.acquireProtect ∧ ∀ e ∈ pre', e ∈ t := by
        rcases hp with ⟨hpa, hrest⟩ | ⟨hpa, hrest⟩
        · refine ⟨hpa, ?_⟩
          intro e he
          have : e ∈ pre' ++ ev :: post := List.mem_append_left _ he
          rw [hrest] at this
          exact this
        · refine ⟨hpa, ?_⟩
          have hlen : pre'.length ≤ t.length := by
            have := congrArg List.length hrest
            simp at this
            omega
          exact mem_left_of_split t [Ev.releaseProtect] pre' post ev hrest hlen
      have hz : protectDepth pre' = 0 :=
        protectDepth_sendSteps pre' (fun e he => ht e (hsub.2 e he))
      rw [hsub.1, protectDepth_cons, hz]
      simp [Ev.protectDelta]
  · rw [protectDepth_cons, protectDepth_append, hdepth]
    simp [Ev.protectDelta, protectDepth]
  · rw [protectDepth_cons, hdepth]
    simp [Ev.protectDelta]

/-- A successful mailbox send appends the envelope at the back of the
receiver's queue: the queue then ends with the sent envelope. -/
theorem send_message_go_success_last {M : Type} (m : ActorMessage M) :
    ∀ (d : Nat) (mb mb' : Mailbox M),
      (Mailbox.send_message_go m d mb).1 = some (Except.ok mb') →
      mb'.queue.getLast? = some m := by
  intro d
  induction d with
  | zero =>
    intro mb mb' h
    simp only [Mailbox.send_message_go] at h
    by_cases hc : mb.connected = false
    · simp [hc] at h
    · by_cases hf : mb.isFull = true
      · simp [hc, hf] at h
      · simp [hc, hf] at h
        rw [← h]
        simp [Mailbox.enqueue, List.getLast?_concat]
  | succ d ih =>
    intro mb mb' h
    simp only [Mailbox.send_message_go] at h
    by_cases hc : mb.connected = false
    · simp [hc] at h
    · by_cases hf : mb.isFull = true
      · simp [hc, hf] at h
        exact ih mb.drain_one mb' h
      · simp [hc, hf] at h
        rw [← h]
        simp [Mailbox.enqueue, List.getLast?_concat]

end Quickwit

namespace Quickwit

/-! ## Claims C1 and C3: the termination taxonomy -/

/-- C1: `is_failure()` returns exactly `OnDemand → false`,
`DownstreamClosed → true`, `Failure(_) → true` (for any cause),
`Finished → false`, `KillSwitch → false`. -/
theorem is_failure_classification :
    ActorTermination.OnDemand.is_failure = false ∧
    ActorTermination.DownstreamClosed.is_failure = true ∧
    (∀ c : AnyhowError, (ActorTermination.Failure c).is_failure = true) ∧
    ActorTermination.Finished.is_failure = false ∧
    ActorTermination.KillSwitch.is_failure = false :=
  ⟨rfl, rfl, fun _ => rfl, rfl, rfl⟩

/-- C3: the conversion `From<SendError> for ActorTermination` is total and
maps every send error, whatever its variant, to `DownstreamClosed` — in
particular it is constant, discarding the original failure information. -/
theorem from_send_error_total_downstream_closed :
    (∀ e : SendError,
        ActorTermination.from_send_error e = ActorTermination.DownstreamClosed) ∧
    (∀ e₁ e₂ : SendError,
        ActorTermination.from_send_error e₁ = ActorTermination.from_send_error e₂) :=
  ⟨fun _ => rfl, fun _ _ => rfl⟩

/-! ## Claim C2: `terminate` and the kill switch -/

/-- C2: for every termination reason, `terminate` trips the shared kill
switch iff the reason is a failure (monotonically: an already-tripped
switch stays tripped), and in every case stores the terminal run-state; in
particular an initially-untripped switch ends tripped exactly when the
reason is failing. -/
theorem terminate_kill_switch_iff_failure {M : Type} (ctx : ActorContextInner M)
    (t : ActorTermination) :
    (ctx.terminate t).actor_state.state = ActorState.Terminated ∧
    (ctx.terminate t).kill_switch.killed =
      (ctx.kill_switch.killed || t.is_failure) ∧
    (ctx.kill_switch.killed = false →
      ((ctx.terminate t).kill_switch.killed = true ↔ t.is_failure = true)) := by
  unfold ActorContextInner.terminate
  by_cases hf : t.is_failure = true
  · simp [hf, KillSwitch.kill, AtomicState.terminate]
  · simp at hf
    simp [hf, AtomicState.terminate]

/-- C2 witness: terminating the concrete untripped context with the
non-failing `OnDemand` reason leaves the switch untripped. -/
theorem terminate_kill_switch_iff_failure_witness :
    ctxW.kill_switch.killed = false ∧
    ((ctxW.terminate ActorTermination.OnDemand).kill_switch.killed = true ↔
      (ActorTermination.OnDemand).is_failure = true) :=
  ⟨rfl, (terminate_kill_switch_iff_failure ctxW ActorTermination.OnDemand).2.2 rfl⟩

/-! ## Claims C4 and C10: the blocking-flavor self-send -/

/-- C4: the blocking-flavor self-send makes exactly one non-blocking
`try_send` attempt on the own mailbox — its trace is that single attempt,
with no wait step and no guard acquisition — and whenever the attempt
cannot complete instantly it returns `WouldDeadlock` at once. -/
theorem send_self_blocking_never_waits {M : Type}
    (ctx : ActorContextInner M) (msg : M) :
    (ActorContext.send_self_message_blocking ctx msg).2 = [Ev.trySendAttempt] ∧
    (∀ e, ctx.self_mailbox.try_send (ActorMessage.Message msg) =
        Except.error e →
      (ActorContext.send_self_message_blocking ctx msg).1 =
        Except.error SendError.WouldDeadlock) ∧
    (∀ mb', ctx.self_mailbox.try_send (ActorMessage.Message msg) =
        Except.ok mb' →
      (ActorContext.send_self_message_blocking ctx msg).1 = Except.ok mb') := by
  refine ⟨?_, ?_, ?_⟩
  · unfold ActorContext.send_self_message_blocking
    cases h : ctx.self_mailbox.try_send (ActorMessage.Message msg) <;> simp [h]
  · intro e he
    unfold ActorContext.send_self_message_blocking
    rw [he]
  · intro mb' hok
    unfold ActorContext.send_self_message_blocking
    rw [hok]

/-- C4 witness: against the concrete full own mailbox the attempt fails
with `Full` and the self-send reports `WouldDeadlock` at once. -/
theorem send_self_blocking_never_waits_witness :
    ctxW.self_mailbox.try_send (ActorMessage.Message 7) =
      Except.error TrySendError.Full ∧
    (ActorContext.send_self_message_blocking ctxW 7).1 =
      Except.error SendError.WouldDeadlock :=
  ⟨rfl, (send_self_blocking_never_waits ctxW 7).2.1 TrySendError.Full rfl⟩

/-- C10: every failure of the single `try_send` attempt — a full own queue
and a closed own mailbox alike — is collapsed to `WouldDeadlock`, so two
contexts failing for the two different underlying reasons are
indistinguishable through this operation's error value. -/
theorem send_self_blocking_error_collapse {M : Type}
    (ctx₁ ctx₂ : ActorContextInner M) (msg₁ msg₂ : M) (e₁ e₂ : TrySendError)
    (h₁ : ctx₁.self_mailbox.try_send (ActorMessage.Message msg₁) =
      Except.error e₁)
    (h₂ : ctx₂.self_mailbox.try_send (ActorMessage.Message msg₂) =
      Except.error e₂) :
    (ActorContext.send_self_message_blocking ctx₁ msg₁).1 =
      Except.error SendError.WouldDeadlock ∧
    (ActorContext.send_self_message_blocking ctx₂ msg₂).1 =
      Except.error SendError.WouldDeadlock ∧
    (ActorContext.send_self_message_blocking ctx₁ msg₁).1 =
      (ActorContext.send_self_message_blocking ctx₂ msg₂).1 := by
  unfold ActorContext.send_self_message_blocking
  rw [h₁, h₂]
  exact ⟨rfl, rfl, rfl⟩

/-- C10 witness: a full-queue failure and a closed-mailbox failure produce
the same `WouldDeadlock` error. -/
theorem send_self_blocking_error_collapse_witness :
    (ActorContext.send_self_message_blocking ctxW 7).1 =
      (ActorContext.send_self_message_blocking ctxClosedW 7).1 :=
  (send_self_blocking_error_collapse ctxW ctxClosedW 7 7
    TrySendError.Full TrySendError.Disconnected rfl rfl).2.2

/-! ## Claim C5: the liveness exemption spans the whole peer send -/

/-- C5: in both flavors, the peer send's trace opens with the guard
acquisition; at every mailbox-send step of the trace (wait, enqueue, or
failure) the protect-zone depth of the preceding prefix is at least 1, so a
polling observer never sees the sender unprotected during the send; the
guard is still held while the send is suspended, and once the send
completes — successfully or with an error — the depth returns to 0: the
guard was released, and only after the send. -/
theorem peer_send_protect_zone_held {M N : Type} (ctx : ActorContextInner M)
    (mailbox : Mailbox N) (msg : N) (drains : Nat) :
    (∀ pre ev post, Ev.isSendStep ev = true →
      (ActorContext.send_message_blocking ctx mailbox msg drains).2 =
        pre ++ ev :: post →
      1 ≤ protectDepth pre) ∧
    (∀ pre ev post, Ev.isSendStep ev = true →
      (ActorContext.send_message ctx mailbox msg drains).2 =
        pre ++ ev :: post →
      1 ≤ protectDepth pre) ∧
    (∀ res, (ActorContext.send_message_blocking ctx mailbox msg drains).1 =
        some res →
      protectDepth (ActorContext.send_message_blocking ctx mailbox msg drains).2 = 0) ∧
    (∀ res, (ActorContext.send_message ctx mailbox msg drains).1 = some res →
      protectDepth (ActorContext.send_message ctx mailbox msg drains).2 = 0) ∧
    ((ActorContext.send_message_blocking ctx mailbox msg drains).1 = none →
      1 ≤ protectDepth (ActorContext.send_message_blocking ctx mailbox msg drains).2) ∧
    ((ActorContext.send_message ctx mailbox msg drains).1 = none →
      1 ≤ protectDepth (ActorContext.send_message ctx mailbox msg drains).2) := by
  rcases hr : mailbox.send_message_run (ActorMessage.Message msg) drains with ⟨o, t⟩
  have ht : ∀ e ∈ t, Ev.isSendStep e = true := by
    intro e he
    refine send_message_go_events (ActorMessage.Message msg) drains mailbox e ?_
    show e ∈ (mailbox.send_message_run (ActorMessage.Message msg) drains).2
    rw [hr]
    exact he
  have W := protect_wrap_spec t ht
  simp only [ActorContext.send_message_blocking, ActorContext.send_message, hr]
  cases o with
  | none =>
    simp only []
    refine ⟨?_, ?_, ?_, ?_, ?_, ?_⟩
    · intro pre ev post hev heq
      exact W.1 pre ev post hev (Or.inl heq)
    · intro pre ev post hev heq
      exact W.1 pre ev post hev (Or.inl heq)
    · intro res h
      exact absurd h (by simp)
    · intro res h
      exact absurd h (by simp)
    · intro _
      exact W.2.2
    · intro _
      exact W.2.2
  | some res =>
    simp only []
    refine ⟨?_, ?_, ?_, ?_, ?_, ?_⟩
    · intro pre ev post hev heq
      exact W.1 pre ev post hev (Or.inr heq)
    · intro pre ev post hev heq
      exact W.1 pre ev post hev (Or.inr heq)
    · intro _ _
      exact W.2.1
    · intro _ _
      exact W.2.1
    · intro h
      exact absurd h (by simp)
    · intro h
      exact absurd h (by simp)

/-- C5 witness: a concrete blocked-then-completed peer send against the
saturated mailbox; the observer polling at the wait step sees depth 1. -/
theorem peer_send_protect_zone_held_witness :
    (ActorContext.send_message_blocking ctxW mbFullW 7 1).2 =
      [Ev.acquireProtect] ++ Ev.waitStep :: [Ev.enqueueStep, Ev.releaseProtect] ∧
    1 ≤ protectDepth [Ev.acquireProtect] :=
  ⟨by decide,
    (peer_send_protect_zone_held ctxW mbFullW 7 1).1
      [Ev.acquireProtect] Ev.waitStep [Ev.enqueueStep, Ev.releaseProtect]
      rfl (by decide)⟩

/-! ## Claim C6: the cooperative self-send -/

/-- C6: the cooperative-flavor self-send acquires no liveness-exemption
guard (its trace never contains an acquire or release event), returns the
underlying suspending send's outcome unchanged, and against a full own
queue it suspends (no immediate failure) and completes with the enqueue as
soon as the receiver frees one slot. -/
theorem send_self_cooperative_spec {M : Type} (ctx : ActorContextInner M)
    (msg : M) (n : Nat)
    (hconn : ctx.self_mailbox.connected = true)
    (hcap : ctx.self_mailbox.capacity = QueueCapacity.Bounded n)
    (hlen : ctx.self_mailbox.queue.length = n) (hn : 0 < n) :
    (∀ drains : Nat,
      Ev.acquireProtect ∉ (ActorContext.send_self_message ctx msg drains).2 ∧
      Ev.releaseProtect ∉ (ActorContext.send_self_message ctx msg drains).2) ∧
    (∀ drains : Nat, (ActorContext.send_self_message ctx msg drains).1 =
      (ctx.self_mailbox.send_message_run (ActorMessage.Message msg) drains).1) ∧
    (ActorContext.send_self_message ctx msg 0).1 = none ∧
    (ActorContext.send_self_message ctx msg 1).1 =
      some (Except.ok
        (ctx.self_mailbox.drain_one.enqueue (ActorMessage.Message msg))) := by
  have hc : ¬ ctx.self_mailbox.connected = false := by
    rw [hconn]; simp
  have hfull : ctx.self_mailbox.isFull = true := by
    simp [Mailbox.isFull, hcap, hlen]
  have hc2 : ¬ ctx.self_mailbox.drain_one.connected = false := by
    simp [Mailbox.drain_one, hconn]
  have hnotfull : ¬ ctx.self_mailbox.drain_one.isFull = true := by
    simp [Mailbox.isFull, Mailbox.drain_one, hcap, hlen]
    omega
  refine ⟨?_, ?_, ?_, ?_⟩
  · intro drains
    constructor <;> intro hmem <;>
      · have hstep := send_message_go_events (ActorMessage.Message msg) drains
          ctx.self_mailbox _ hmem
        simp [Ev.isSendStep] at hstep
  · intro drains
    rfl
  · show (Mailbox.send_message_go (ActorMessage.Message msg) 0
      ctx.self_mailbox).1 = none
    simp [Mailbox.send_message_go, hc, hfull]
  · show (Mailbox.send_message_go (ActorMessage.Message msg) 1
      ctx.self_mailbox).1 = _
    simp [Mailbox.send_message_go, hc, hfull, hc2, hnotfull]

/-- C6 witness: against the concrete saturated own mailbox the cooperative
self-send is still pending with no drain, rather than failing. -/
theorem send_self_cooperative_spec_witness :
    ctxW.self_mailbox.connected = true ∧ 0 < 1 ∧
    (ActorContext.send_self_message ctxW 9 0).1 = none :=
  ⟨rfl, by decide,
    (send_self_cooperative_spec ctxW 9 1 rfl rfl rfl (by decide)).2.2.1⟩

/-! ## Claims C7 and C8: deferred self-messaging -/

/-- Both peer-send wrappers return the underlying mailbox send's outcome as
their first component. -/
theorem send_message_fst {M N : Type} (ctx : ActorContextInner M)
    (mailbox : Mailbox N) (msg : N) (drains : Nat) :
    (ActorContext.send_message ctx mailbox msg drains).1 =
      (mailbox.send_message_run (ActorMessage.Message msg) drains).1 ∧
    (ActorContext.send_message_blocking ctx mailbox msg drains).1 =
      (mailbox.send_message_run (ActorMessage.Message msg) drains).1 := by
  unfold ActorContext.send_message ActorContext.send_message_blocking
  rcases hr : mailbox.send_message_run (ActorMessage.Message msg) drains with ⟨o, t⟩
  cases o <;> simp [hr]

/-- C7: scheduling is silent to the caller in both flavors: the operation's
caller-visible value is `()` whatever the submission to the scheduler did —
two runs against different contexts and drain schedules return the same
value — and the deferred delivery attempt surfaces nothing either: on a
closed target mailbox the callback leaves it unchanged and produces no
error. -/
theorem schedule_self_msg_silent {M : Type} (ctx ctx₂ : ActorContextInner M)
    (after_duration : Nat) (msg : M) (drains drains₂ : Nat) :
    (ActorContext.schedule_self_msg_blocking ctx after_duration msg drains).1 = () ∧
    (ActorContext.schedule_self_msg ctx after_duration msg drains).1 = () ∧
    (ActorContext.schedule_self_msg_blocking ctx after_duration msg drains).1 =
      (ActorContext.schedule_self_msg_blocking ctx₂ after_duration msg drains₂).1 ∧
    (ActorContext.schedule_self_msg ctx after_duration msg drains).1 =
      (ActorContext.schedule_self_msg ctx₂ after_duration msg drains₂).1 ∧
    (∀ cb : Callback M, ∀ mb : Mailbox M, mb.connected = false →
      Callback.run cb mb = mb) := by
  refine ⟨rfl, rfl, rfl, rfl, ?_⟩
  intro cb mb hmb
  simp [Callback.run, Mailbox.send_command, hmb]

/-- C7 witness: the deferred delivery against a concrete closed mailbox is
swallowed — the mailbox is returned unchanged. -/
theorem schedule_self_msg_silent_witness :
    mbClosedW.connected = false ∧
    Callback.run
      { self_mailbox := mbFullW, cmd := Command.HighPriorityMessage 3 }
      mbClosedW = mbClosedW :=
  ⟨rfl,
    (schedule_self_msg_silent ctxW ctxClosedW 10 3 0 1).2.2.2.2
      { self_mailbox := mbFullW, cmd := Command.HighPriorityMessage 3 }
      mbClosedW rfl⟩

/-- C8: both schedule flavors submit, through the corresponding
backpressure-safe peer-send path aimed at the scheduler's mailbox, exactly
the `ScheduleEvent` carrying the given timeout and a deferred callback that
captures the actor's own mailbox and the message wrapped as
`Command::HighPriorityMessage`; when the submission succeeds the scheduler's
queue ends with that event, and when later run the callback delivers the
high-priority command into its captured mailbox via `send_command`. -/
theorem schedule_self_msg_mechanism {M : Type} (ctx : ActorContextInner M)
    (after_duration : Nat) (msg : M) (drains : Nat) :
    (ActorContext.schedule_self_msg_blocking ctx after_duration msg drains).2 =
      ActorContext.send_message_blocking ctx ctx.scheduler_mailbox
        (SchedulerMessage.ScheduleEvent after_duration
          { self_mailbox := ctx.self_mailbox
            cmd := Command.HighPriorityMessage msg }) drains ∧
    (ActorContext.schedule_self_msg ctx after_duration msg drains).2 =
      ActorContext.send_message ctx ctx.scheduler_mailbox
        (SchedulerMessage.ScheduleEvent after_duration
          { self_mailbox := ctx.self_mailbox
            cmd := Command.HighPriorityMessage msg }) drains ∧
    (∀ mb', (ActorContext.schedule_self_msg ctx after_duration msg drains).2.1 =
        some (Except.ok mb') →
      mb'.queue.getLast? = some (ActorMessage.Message
        (SchedulerMessage.ScheduleEvent after_duration
          { self_mailbox := ctx.self_mailbox
            cmd := Command.HighPriorityMessage msg }))) ∧
    (∀ mb : Mailbox M, mb.connected = true →
      Callback.run
        { self_mailbox := ctx.self_mailbox
          cmd := Command.HighPriorityMessage msg } mb =
        { mb with commands :=
            mb.commands ++ [Command.HighPriorityMessage msg] }) := by
  refine ⟨rfl, rfl, ?_, ?_⟩
  · intro mb' h
    have h2 : (ctx.scheduler_mailbox.send_message_run
        (ActorMessage.Message (SchedulerMessage.ScheduleEvent after_duration
          { self_mailbox := ctx.self_mailbox
            cmd := Command.HighPriorityMessage msg })) drains).1 =
        some (Except.ok mb') := by
      rw [← (send_message_fst ctx ctx.scheduler_mailbox
        (SchedulerMessage.ScheduleEvent after_duration
          { self_mailbox := ctx.self_mailbox
            cmd := Command.HighPriorityMessage msg }) drains).1]
      exact h
    exact send_message_go_success_last _ drains ctx.scheduler_mailbox mb' h2
  · intro mb hmb
    simp [Callback.run, Mailbox.send_command, hmb]

/-- C8 witness: submitting against the concrete (empty, unbounded, open)
scheduler mailbox succeeds and its queue then ends with the schedule
event. -/
theorem schedule_self_msg_mechanism_witness :
    (ActorContext.schedule_self_msg ctxW 10 3 0).2.1 =
      some (Except.ok (schedMbW.enqueue (ActorMessage.Message
        (SchedulerMessage.ScheduleEvent 10
          { self_mailbox := mbFullW
            cmd := Command.HighPriorityMessage 3 })))) ∧
    (schedMbW.enqueue (ActorMessage.Message
        (SchedulerMessage.ScheduleEvent 10
          { self_mailbox := mbFullW
            cmd := Command.HighPriorityMessage 3 }))).queue.getLast? =
      some (ActorMessage.Message (SchedulerMessage.ScheduleEvent 10
        { self_mailbox := mbFullW
          cmd := Command.HighPriorityMessage 3 })) :=
  ⟨rfl,
    (schedule_self_msg_mechanism ctxW 10 3 0).2.2.1
      (schedMbW.enqueue (ActorMessage.Message
        (SchedulerMessage.ScheduleEvent 10
          { self_mailbox := mbFullW
            cmd := Command.HighPriorityMessage 3 }))) rfl⟩

/-! ## Claim C9: construction and immutability of the context -/

/-- Each run-loop / liveness / kill-switch operation preserves the instance
name and both mailbox bindings. -/
theorem ctxOp_preserves {M : Type} (ctx : ActorContextInner M) (op : CtxOp) :
    (CtxOp.applyTo ctx op).actor_instance_name = ctx.actor_instance_name ∧
    (CtxOp.applyTo ctx op).self_mailbox = ctx.self_mailbox ∧
    (CtxOp.applyTo ctx op).scheduler_mailbox = ctx.scheduler_mailbox := by
  cases op with
  | pause => exact ⟨rfl, rfl, rfl⟩
  | resume => exact ⟨rfl, rfl, rfl⟩
  | terminate t =>
    by_cases hf : t.is_failure = true <;>
      simp [CtxOp.applyTo, ActorContextInner.terminate, hf]
  | record_progress => exact ⟨rfl, rfl, rfl⟩
  | protect_zone => exact ⟨rfl, rfl, rfl⟩
  | kill_external => exact ⟨rfl, rfl, rfl⟩

/-- C9 counterexample: applying `record_progress` changes the context's
liveness tracker while leaving both the run-state and the kill switch
unchanged, so the claim that *only* the run-state and the shared kill
switch mutate over the context's life is false as stated. -/
theorem context_only_runstate_killswitch_cex :
    (applyOps ctxW [CtxOp.record_progress]).progress ≠ ctxW.progress ∧
    (applyOps ctxW [CtxOp.record_progress]).actor_state = ctxW.actor_state ∧
    (applyOps ctxW [CtxOp.record_progress]).kill_switch = ctxW.kill_switch := by
  refine ⟨?_, rfl, rfl⟩
  decide

/-- C9 (amended): the instance name equals the name taken from the own
mailbox at construction; clones share the same inner state; and under every
sequence of operations the instance name, the own-mailbox binding and the
scheduler-mailbox binding are unchanged — the mutable components of the
context's life are the run-state, the shared kill switch and the per-actor
liveness tracker. -/
theorem context_identity_invariant {M : Type} (mb : Mailbox M)
    (ks : KillSwitch) (smb : Mailbox (SchedulerMessage M))
    (c : ActorContext M) (ctx : ActorContextInner M) (ops : List CtxOp) :
    (ActorContext.new mb ks smb).inner.actor_instance_name =
      mb.actor_instance_name ∧
    (ActorContext.new mb ks smb).inner.self_mailbox = mb ∧
    c.clone = c ∧
    (applyOps ctx ops).actor_instance_name = ctx.actor_instance_name ∧
    (applyOps ctx ops).self_mailbox = ctx.self_mailbox ∧
    (applyOps ctx ops).scheduler_mailbox = ctx.scheduler_mailbox := by
  refine ⟨rfl, rfl, rfl, ?_⟩
  induction ops generalizing ctx with
  | nil => exact ⟨rfl, rfl, rfl⟩
  | cons op ops ih =>
    have h1 := ctxOp_preserves ctx op
    have h2 := ih (CtxOp.applyTo ctx op)
    exact ⟨h2.1.trans h1.1, h2.2.1.trans h1.2.1, h2.2.2.trans h1.2.2⟩

end Quickwit
